import Mathlib

/-!
Verification development for `HaMqttConfigBuilder.h`, a header-only
incremental JSON builder for Home-Assistant MQTT discovery payloads.

The builder state is one growable text buffer (`payload_`), a nesting
depth, a construction-time depth ceiling, a per-depth array of
"first field at this level" flags, and a device-block cache (a committed
flag plus a saved buffer offset).

The embedding below models the buffer as `List Char` and each C++ member
function as a pure function on the `Builder` record.  Machine integers
(`uint8_t depth_`, `size_t` offsets) stay far below their overflow bounds
in all reachable states (depth is at most 6), so they are modelled as
`Nat`.  `String` growth failure is out of scope per the spec (delegated to
the buffer collaborator), so appends always succeed.
-/

namespace HaCfgB

/-- Compile-time depth limit `kStaticMaxDepth = 6` from the source. -/
def kStaticMaxDepth : Nat := 6

/-- State of `class HaMqttConfigBuilder`: `payload_`, `depth_`, `maxDepth_`,
`first_[kStaticMaxDepth + 1]`, `deviceSet_`, `deviceEndPos_`.
The `first_` array (length 7) is modelled as a `List Bool`. -/
structure Builder where
  payload : List Char
  depth : Nat
  maxDepth : Nat
  first : List Bool
  deviceSet : Bool
  deviceEndPos : Nat
deriving DecidableEq, Repr

/-- Constructor: clamps `maxDepth` to `kStaticMaxDepth`, sets the buffer to
a single opening brace, zero depth, all first-flags true.  The
`reserveBytes` capacity hint has no semantic effect and is omitted. -/
def mkBuilder (maxDepth : Nat) : Builder :=
  { payload := ['\x7b']
    depth := 0
    maxDepth := if maxDepth > kStaticMaxDepth then kStaticMaxDepth else maxDepth
    first := List.replicate (kStaticMaxDepth + 1) true
    deviceSet := false
    deviceEndPos := 0 }

/-- `clear()`: restores the post-construction state (buffer `"{"`, depth 0,
all first-flags true, device cache forgotten), keeping `maxDepth_`. -/
def clear (b : Builder) : Builder :=
  { payload := ['\x7b']
    depth := 0
    maxDepth := b.maxDepth
    first := List.replicate (kStaticMaxDepth + 1) true
    deviceSet := false
    deviceEndPos := 0 }

/-- `escapeAndAppend(s)`: the per-character switch of the source, appending
into the payload.  Escapes `"`, backslash, backspace, form feed, newline,
carriage return and tab; every other byte is appended unchanged. -/
def escapeAndAppend (payload : List Char) : List Char → List Char
  | [] => payload
  | c :: rest =>
    escapeAndAppend
      (payload ++
        (if c = '"' then ['\\', '"']
         else if c = '\\' then ['\\', '\\']
         else if c = '\x08' then ['\\', 'b']
         else if c = '\x0c' then ['\\', 'f']
         else if c = '\n' then ['\\', 'n']
         else if c = '\r' then ['\\', 'r']
         else if c = '\t' then ['\\', 't']
         else [c]))
      rest

/-- `beginField(key)`: appends a comma unless `first_[depth_]` is set
(clearing the flag in that case), then appends `'"'`, the escaped key, and
the C++ literal `"\":\""` — which is the THREE characters quote, colon,
quote.  The trailing quote is present in the source as written. -/
def beginField (b : Builder) (key : List Char) : Builder :=
  { b with
    payload :=
      escapeAndAppend
        ((if b.first.getD b.depth true = false then b.payload ++ [','] else b.payload)
          ++ ['"'])
        key ++ ['"', ':', '"']
    first :=
      if b.first.getD b.depth true = false then b.first
      else b.first.set b.depth false }

/-- `add(key, const char* val)`: `beginField`, then `'"'`, escaped value,
`'"'`. -/
def addString (b : Builder) (key val : List Char) : Builder :=
  let b1 := beginField b key
  { b1 with payload := escapeAndAppend (b1.payload ++ ['"']) val ++ ['"'] }

/-- Decimal text of a `long`, as `String::concat(long)` renders it. -/
def longToText (v : Int) : List Char := (toString v).toList

/-- `add(key, long val)`: `beginField`, then the decimal text of `val`. -/
def addLong (b : Builder) (key : List Char) (val : Int) : Builder :=
  let b1 := beginField b key
  { b1 with payload := b1.payload ++ longToText val }

/-- `add(key, float val, decimals)`: `beginField`, then the `dtostrf`
fixed-point rendering.  `dtostrf` is an external collaborator (spec §6:
"Float rendering collaborator"), so its output text is taken as the
`rendered` parameter. -/
def addFloat (b : Builder) (key rendered : List Char) : Builder :=
  let b1 := beginField b key
  { b1 with payload := b1.payload ++ rendered }

/-- `add(key, bool val)`: `beginField`, then the word `true` or `false`. -/
def addBool (b : Builder) (key : List Char) (val : Bool) : Builder :=
  let b1 := beginField b key
  { b1 with
    payload := b1.payload ++ (if val then ['t', 'r', 'u', 'e'] else ['f', 'a', 'l', 's', 'e']) }

/-- `beginObject(key)`: no-op at the depth ceiling; otherwise `beginField`,
an opening brace, depth + 1, and the new level's first-flag set true. -/
def beginObject (b : Builder) (key : List Char) : Builder :=
  if b.depth ≥ b.maxDepth then b
  else
    let b1 := beginField b key
    { b1 with
      payload := b1.payload ++ ['\x7b']
      depth := b1.depth + 1
      first := b1.first.set (b1.depth + 1) true }

/-- `endObject()`: no-op at depth 0; otherwise a closing brace and
depth − 1. -/
def endObject (b : Builder) : Builder :=
  if b.depth = 0 then b
  else { b with payload := b.payload ++ ['\x7d'], depth := b.depth - 1 }

/-- The literal key `"device"` used by `beginDevice()`. -/
def deviceKey : List Char := ['d', 'e', 'v', 'i', 'c', 'e']

/-- `beginDevice()`: no-op once the device block is committed; otherwise
`beginObject("device")`. -/
def beginDevice (b : Builder) : Builder :=
  if b.deviceSet then b else beginObject b deviceKey

/-- `endDevice()`: no-op once committed; otherwise `endObject()`, then sets
`deviceSet_`, records `deviceEndPos_ = payload_.length()`, and clears the
root first-flag. -/
def endDevice (b : Builder) : Builder :=
  if b.deviceSet then b
  else
    let b1 := endObject b
    { b1 with
      deviceSet := true
      deviceEndPos := b1.payload.length
      first := b1.first.set 0 false }

/-- `nextSensor()`: no-op without a committed device; otherwise truncates
the buffer to `deviceEndPos_` (`String::remove(index)` drops everything
from `index` on), resets depth to 0 and clears the root first-flag. -/
def nextSensor (b : Builder) : Builder :=
  if b.deviceSet then
    { b with
      payload := b.payload.take b.deviceEndPos
      depth := 0
      first := b.first.set 0 false }
  else b

/-- The countdown loop of `generate()`: `for (int8_t d = depth_; d >= 0; --d)`
appends one closing brace per iteration, i.e. `d + 1` braces in total. -/
def closeBraces : List Char → Nat → List Char
  | out, 0 => out ++ ['\x7d']
  | out, d + 1 => closeBraces (out ++ ['\x7d']) d

/-- `generate()`: a copy of the buffer with the countdown loop's closing
braces appended.  Declared `const` in the source; purity is inherent in the
embedding. -/
def generate (b : Builder) : List Char := closeBraces b.payload b.depth

/-- Matching test at the head of the haystack, used to model
`String::indexOf`. -/
def matchHere : List Char → List Char → Bool
  | [], _ => true
  | _ :: _, [] => false
  | n :: ns, h :: hs => n = h && matchHere ns hs

/-- `String::indexOf(needle)`: index of the first occurrence of `needle`,
`none` when absent. -/
def findSub (needle : List Char) : List Char → Option Nat
  | [] => if matchHere needle [] then some 0 else none
  | c :: rest =>
    if matchHere needle (c :: rest) then some 0
    else (findSub needle rest).map (fun i => i + 1)

/-- `String::indexOf(ch, fromIndex)`: first occurrence of `ch` at an index
≥ `start`. -/
def findCharFrom (ch : Char) (hay : List Char) (start : Nat) : Option Nat :=
  (findSub [ch] (hay.drop start)).map (fun i => i + start)

/-- C `isspace` over the ASCII range: space, tab, newline, vertical tab,
form feed, carriage return. -/
def isCSpace (c : Char) : Bool :=
  c = ' ' || c = '\t' || c = '\n' || c = '\x0b' || c = '\x0c' || c = '\r'

/-- The terminating-quote scan of `getString`: starting with the previous
character `prev`, finds the first index whose character is `'"'` not
preceded by a backslash; `none` when the scan falls off the end. -/
def findEnd (prev : Char) : List Char → Option Nat
  | [] => none
  | c :: rest =>
    if c = '"' && !(prev = '\\') then some 0
    else (findEnd c rest).map (fun i => i + 1)

/-- Body of `getString(key, result)` on the serialized text `json`: scans
for `"key"`, then a colon, skips spaces, expects an opening quote, and
scans for the terminating quote.  Returns the success flag and the
(possibly updated) `result` reference: every failure path returns `result`
unchanged. -/
def getStringIn (json key result : List Char) : Bool × List Char :=
  match findSub ('"' :: (key ++ ['"'])) json with
  | none => (false, result)
  | some p0 =>
    match findCharFrom ':' json (p0 + ('"' :: (key ++ ['"'])).length) with
    | none => (false, result)
    | some p1 =>
      let p2 := p1 + 1 + ((json.drop (p1 + 1)).takeWhile isCSpace).length
      if p2 ≥ json.length then (false, result)
      else if ¬(json.getD p2 ' ' = '"') then (false, result)
      else
        match findEnd '"' (json.drop (p2 + 1)) with
        | none => (false, result)
        | some k => (true, (json.drop (p2 + 1)).take k)

/-- `getString(key, result)`: the scan above over `generate()`.  Declared
`const` in the source; it reads the builder state and never writes it. -/
def getString (b : Builder) (key result : List Char) : Bool × List Char :=
  getStringIn (generate b) key result

/-- Modelled from the spec: the escaping table of §6 ("Escaping rule"),
one character to its replacement; all other bytes pass through unchanged. -/
def specEscapeChar (c : Char) : List Char :=
  if c = '"' then ['\\', '"']
  else if c = '\\' then ['\\', '\\']
  else if c = '\x08' then ['\\', 'b']
  else if c = '\x0c' then ['\\', 'f']
  else if c = '\n' then ['\\', 'n']
  else if c = '\r' then ['\\', 'r']
  else if c = '\t' then ['\\', 't']
  else [c]

/-! ### JSON syntax checker, modelled from the spec

The spec's round-trip property says `serialize()` "parses as a
syntactically valid JSON object under a standard parser".  No parser is
part of the source, so a standard recursive-descent syntax checker is
modelled here from the spec's words.  Arrays are omitted (spec §1 lists
arrays among the non-goals; a text containing one is simply rejected,
which only strengthens a validity counterexample and is never used to
certify validity of array-bearing text). -/

/-- JSON structural whitespace. -/
def isJsonWs (c : Char) : Bool :=
  c = ' ' || c = '\t' || c = '\n' || c = '\r'

/-- Drop structural whitespace. -/
def skipWsJ (s : List Char) : List Char := s.dropWhile isJsonWs

/-- ASCII decimal digit test. -/
def isDigitCh (c : Char) : Bool := '0' ≤ c && c ≤ '9'

/-- ASCII hexadecimal digit test. -/
def isHexCh (c : Char) : Bool :=
  isDigitCh c || ('a' ≤ c && c ≤ 'f') || ('A' ≤ c && c ≤ 'F')

/-- Modelled from the spec: body of a JSON string after the opening quote,
per the standard grammar — escapes for the usual set plus `\uXXXX`, raw
control characters rejected.  Returns the remainder after the closing
quote. -/
def parseStringTail : List Char → Option (List Char)
  | [] => none
  | '"' :: rest => some rest
  | '\\' :: esc :: rest =>
    if ['"', '\\', '/', 'b', 'f', 'n', 'r', 't'].contains esc then parseStringTail rest
    else if esc = 'u' then
      match rest with
      | h1 :: h2 :: h3 :: h4 :: rest2 =>
        if isHexCh h1 && isHexCh h2 && isHexCh h3 && isHexCh h4 then parseStringTail rest2
        else none
      | _ => none
    else none
  | ['\\'] => none
  | c :: rest => if 32 ≤ c.toNat then parseStringTail rest else none

/-- Modelled from the spec: a JSON number's integer part (after any sign):
`0` alone or a nonzero digit followed by digits. -/
def parseIntPart : List Char → Option (List Char)
  | [] => none
  | '0' :: rest => some rest
  | c :: rest => if isDigitCh c && ¬(c = '0') then some (rest.dropWhile isDigitCh) else none

/-- Modelled from the spec: optional fraction part `.digits`. -/
def parseFracPart (s : List Char) : Option (List Char) :=
  match s with
  | '.' :: rest =>
    match rest with
    | c :: _ => if isDigitCh c then some (rest.dropWhile isDigitCh) else none
    | [] => none
  | _ => some s

/-- Modelled from the spec: optional exponent part `[eE][+-]?digits`. -/
def parseExpPart (s : List Char) : Option (List Char) :=
  match s with
  | e :: rest =>
    if e = 'e' || e = 'E' then
      let rest2 := match rest with
                   | sg :: tl => if sg = '+' || sg = '-' then tl else rest
                   | [] => rest
      match rest2 with
      | c :: _ => if isDigitCh c then some (rest2.dropWhile isDigitCh) else none
      | [] => none
    else some s
  | [] => some s

/-- Modelled from the spec: a JSON number, optional leading minus. -/
def parseNumber (s : List Char) : Option (List Char) :=
  let s1 := match s with
            | '-' :: rest => rest
            | _ => s
  match parseIntPart s1 with
  | none => none
  | some s2 =>
    match parseFracPart s2 with
    | none => none
    | some s3 => parseExpPart s3

mutual

/-- Modelled from the spec: a JSON value (object, string, number, or the
literals `true`/`false`/`null`), fuelled for termination. -/
def parseValue : Nat → List Char → Option (List Char)
  | 0, _ => none
  | fuel + 1, s =>
    match skipWsJ s with
    | '"' :: rest => parseStringTail rest
    | '\x7b' :: rest => parseObjectTail fuel rest
    | 't' :: 'r' :: 'u' :: 'e' :: rest => some rest
    | 'f' :: 'a' :: 'l' :: 's' :: 'e' :: rest => some rest
    | 'n' :: 'u' :: 'l' :: 'l' :: rest => some rest
    | s2 => parseNumber s2

/-- Modelled from the spec: object body after the opening brace. -/
def parseObjectTail : Nat → List Char → Option (List Char)
  | 0, _ => none
  | fuel + 1, s =>
    match skipWsJ s with
    | '\x7d' :: rest => some rest
    | s2 => parseMembers fuel s2

/-- Modelled from the spec: one or more `"key": value` members separated by
commas, up to the closing brace. -/
def parseMembers : Nat → List Char → Option (List Char)
  | 0, _ => none
  | fuel + 1, s =>
    match skipWsJ s with
    | '"' :: rest =>
      match parseStringTail rest with
      | none => none
      | some s2 =>
        match skipWsJ s2 with
        | ':' :: s3 =>
          match parseValue fuel s3 with
          | none => none
          | some s4 =>
            match skipWsJ s4 with
            | ',' :: s5 => parseMembers fuel s5
            | '\x7d' :: s5 => some s5
            | _ => none
        | _ => none
    | _ => none

end

/-- Modelled from the spec: the whole text is one syntactically valid JSON
object (leading/trailing whitespace allowed, nothing else after it). -/
def jsonValidObject (s : List Char) : Bool :=
  match skipWsJ s with
  | '\x7b' :: _ =>
    match parseValue (s.length + 1) s with
    | some rest => (skipWsJ rest).isEmpty
    | none => false
  | _ => false

/-! ### Call sequences and reachability -/

/-- One public mutating call.  `addF` carries the `dtostrf`-rendered text
(external collaborator, spec §6). -/
inductive Op where
  | addS (key val : List Char)
  | addL (key : List Char) (val : Int)
  | addF (key rendered : List Char)
  | addB (key : List Char) (val : Bool)
  | beginObj (key : List Char)
  | endObj
  | beginDev
  | endDev
  | next
  | clr
deriving DecidableEq

/-- Interpret one call on the builder state. -/
def applyOp (b : Builder) : Op → Builder
  | .addS k v => addString b k v
  | .addL k v => addLong b k v
  | .addF k r => addFloat b k r
  | .addB k v => addBool b k v
  | .beginObj k => beginObject b k
  | .endObj => endObject b
  | .beginDev => beginDevice b
  | .endDev => endDevice b
  | .next => nextSensor b
  | .clr => clear b

/-- Run a call sequence left to right. -/
def run (b : Builder) (ops : List Op) : Builder := ops.foldl applyOp b

/-- A state is reachable when some call sequence produces it from some
freshly constructed builder. -/
def Reachable (b : Builder) : Prop :=
  ∃ m ops, b = run (mkBuilder m) ops

/-! ### Helper lemmas -/

theorem beginField_depth (b : Builder) (k : List Char) :
    (beginField b k).depth = b.depth := rfl

theorem beginField_maxDepth (b : Builder) (k : List Char) :
    (beginField b k).maxDepth = b.maxDepth := rfl

theorem beginField_deviceSet (b : Builder) (k : List Char) :
    (beginField b k).deviceSet = b.deviceSet := rfl

theorem beginField_deviceEndPos (b : Builder) (k : List Char) :
    (beginField b k).deviceEndPos = b.deviceEndPos := rfl

theorem addString_frame (b : Builder) (k v : List Char) :
    (addString b k v).depth = b.depth ∧ (addString b k v).maxDepth = b.maxDepth ∧
    (addString b k v).deviceSet = b.deviceSet ∧
    (addString b k v).deviceEndPos = b.deviceEndPos :=
  ⟨rfl, rfl, rfl, rfl⟩

theorem addLong_frame (b : Builder) (k : List Char) (v : Int) :
    (addLong b k v).depth = b.depth ∧ (addLong b k v).maxDepth = b.maxDepth ∧
    (addLong b k v).deviceSet = b.deviceSet ∧
    (addLong b k v).deviceEndPos = b.deviceEndPos :=
  ⟨rfl, rfl, rfl, rfl⟩

theorem addFloat_frame (b : Builder) (k r : List Char) :
    (addFloat b k r).depth = b.depth ∧ (addFloat b k r).maxDepth = b.maxDepth ∧
    (addFloat b k r).deviceSet = b.deviceSet ∧
    (addFloat b k r).deviceEndPos = b.deviceEndPos :=
  ⟨rfl, rfl, rfl, rfl⟩

theorem addBool_frame (b : Builder) (k : List Char) (v : Bool) :
    (addBool b k v).depth = b.depth ∧ (addBool b k v).maxDepth = b.maxDepth ∧
    (addBool b k v).deviceSet = b.deviceSet ∧
    (addBool b k v).deviceEndPos = b.deviceEndPos :=
  ⟨rfl, rfl, rfl, rfl⟩

theorem beginObject_maxDepth (b : Builder) (k : List Char) :
    (beginObject b k).maxDepth = b.maxDepth := by
  unfold beginObject; split <;> rfl

theorem beginObject_deviceSet (b : Builder) (k : List Char) :
    (beginObject b k).deviceSet = b.deviceSet := by
  unfold beginObject; split <;> rfl

theorem beginObject_deviceEndPos (b : Builder) (k : List Char) :
    (beginObject b k).deviceEndPos = b.deviceEndPos := by
  unfold beginObject; split <;> rfl

theorem endObject_frame (b : Builder) :
    (endObject b).maxDepth = b.maxDepth ∧ (endObject b).deviceSet = b.deviceSet ∧
    (endObject b).deviceEndPos = b.deviceEndPos ∧ (endObject b).first = b.first ∧
    (endObject b).depth ≤ b.depth := by
  unfold endObject; split
  · exact ⟨rfl, rfl, rfl, rfl, Nat.le_refl _⟩
  · exact ⟨rfl, rfl, rfl, rfl, Nat.sub_le _ _⟩

/-- The escaping loop with its accumulator equals appending the flat map of
the per-character table. -/
theorem escapeAndAppend_eq_flatMap (s p : List Char) :
    escapeAndAppend p s = p ++ s.flatMap specEscapeChar := by
  induction s generalizing p with
  | nil => simp [escapeAndAppend]
  | cons c rest ih =>
    simp only [escapeAndAppend, ih, specEscapeChar, List.flatMap_cons, List.append_assoc]

/-! ### Claim theorems -/

/-- Claim C9: the escaping routine maps the quote, backslash, backspace,
form feed, newline, carriage return and tab to their two-character escape
sequences and passes every other byte through unchanged; over a whole
string it is exactly the concatenation of the per-character table. -/
theorem escape_table (p s : List Char) (c : Char)
    (hc : c ∉ ['"', '\\', '\x08', '\x0c', '\n', '\r', '\t']) :
    escapeAndAppend p s = p ++ s.flatMap specEscapeChar ∧
    escapeAndAppend [] [c] = [c] ∧
    escapeAndAppend [] ['"'] = ['\\', '"'] ∧
    escapeAndAppend [] ['\\'] = ['\\', '\\'] ∧
    escapeAndAppend [] ['\x08'] = ['\\', 'b'] ∧
    escapeAndAppend [] ['\x0c'] = ['\\', 'f'] ∧
    escapeAndAppend [] ['\n'] = ['\\', 'n'] ∧
    escapeAndAppend [] ['\r'] = ['\\', 'r'] ∧
    escapeAndAppend [] ['\t'] = ['\\', 't'] := by
  simp only [List.mem_cons, List.mem_singleton, not_or] at hc
  obtain ⟨h1, h2, h3, h4, h5, h6, h7, -⟩ := hc
  refine ⟨escapeAndAppend_eq_flatMap s p, ?_, by decide, by decide, by decide, by decide,
    by decide, by decide, by decide⟩
  simp [escapeAndAppend, h1, h2, h3, h4, h5, h6, h7]

/-- Claim C9 witness: a concrete instance at `p = ['a']`, `s = ['k']`,
`c = 'x'`. -/
theorem escape_table_witness :
    'x' ∉ ['"', '\\', '\x08', '\x0c', '\n', '\r', '\t'] ∧
    (escapeAndAppend ['a'] ['k'] = ['a'] ++ ['k'].flatMap specEscapeChar ∧
     escapeAndAppend [] ['x'] = ['x'] ∧
     escapeAndAppend [] ['"'] = ['\\', '"'] ∧
     escapeAndAppend [] ['\\'] = ['\\', '\\'] ∧
     escapeAndAppend [] ['\x08'] = ['\\', 'b'] ∧
     escapeAndAppend [] ['\x0c'] = ['\\', 'f'] ∧
     escapeAndAppend [] ['\n'] = ['\\', 'n'] ∧
     escapeAndAppend [] ['\r'] = ['\\', 'r'] ∧
     escapeAndAppend [] ['\t'] = ['\\', 't']) :=
  ⟨by decide, escape_table ['a'] ['k'] 'x' (by decide)⟩

/-- The countdown loop of `generate()` appends exactly `d + 1` braces. -/
theorem closeBraces_eq (d : Nat) (out : List Char) :
    closeBraces out d = out ++ List.replicate (d + 1) '\x7d' := by
  induction d generalizing out with
  | zero => simp [closeBraces]
  | succ n ih =>
    simp only [closeBraces, ih, List.replicate_succ, List.append_assoc,
      List.singleton_append]

/-- Claim C6: `generate()` returns the current buffer with exactly
`depth + 1` closing braces appended (the loop closes the innermost open
object first and the root last).  It is a `const` member reading the state
only, modelled here as a pure function, so repeated calls at the same
state are definitionally identical. -/
theorem generate_closes_all (b : Builder) :
    generate b = b.payload ++ List.replicate (b.depth + 1) '\x7d' :=
  closeBraces_eq b.depth b.payload

/-- Claim C1: refuted by the code.  `beginField` appends the C++ literal
`"\":\""` — quote, colon, QUOTE — so every scalar `add` emits a stray
opening quote between the colon and the value: the string overload yields
`"a":""b"` (value doubly opened), and the integer, float and bool
overloads yield `"n":"5`, `"f":"1.50`, `"k":"true` instead of the
well-formed `"name":value` fragments the claim states. -/
theorem scalar_add_extra_quote :
    (addString (mkBuilder 4) ['a'] ['b']).payload
      = ['\x7b', '"', 'a', '"', ':', '"', '"', 'b', '"'] ∧
    (addLong (mkBuilder 4) ['n'] 5).payload
      = ['\x7b', '"', 'n', '"', ':', '"', '5'] ∧
    (addFloat (mkBuilder 4) ['f'] ['1', '.', '5', '0']).payload
      = ['\x7b', '"', 'f', '"', ':', '"', '1', '.', '5', '0'] ∧
    (addBool (mkBuilder 4) ['k'] true).payload
      = ['\x7b', '"', 'k', '"', ':', '"', 't', 'r', 'u', 'e'] := by decide

/-- Claim C2: refuted by the code.  After a single string append the
serialized text is `{"a":""b"}`, which is not a syntactically valid JSON
object (the value position holds the empty string `""` followed by the
bytes `b"`), while the text the claim expects, `{"a":"b"}`, is valid.
The root cause is the stray quote appended by `beginField`. -/
theorem serialize_not_valid_json :
    generate (addString (mkBuilder 4) ['a'] ['b'])
      = ['\x7b', '"', 'a', '"', ':', '"', '"', 'b', '"', '\x7d'] ∧
    jsonValidObject (generate (addString (mkBuilder 4) ['a'] ['b'])) = false ∧
    jsonValidObject ['\x7b', '"', 'a', '"', ':', '"', 'b', '"', '\x7d'] = true := by decide

/-- Claim C3: refuted by the code.  After building the
`{"name":"Temp","unit":"C"}`-equivalent payload, `getString("name")`
returns `true` but writes the EMPTY string into the output (the scan stops
at the stray quote `beginField` inserted after the colon), not `Temp`.
The missing-key half of the claim does hold: the lookup returns `false`
and leaves the output untouched. -/
theorem lookup_returns_empty :
    getString
        (addString (addString (mkBuilder 4) ['n', 'a', 'm', 'e'] ['T', 'e', 'm', 'p'])
          ['u', 'n', 'i', 't'] ['C'])
        ['n', 'a', 'm', 'e'] ['x'] = (true, []) ∧
    getString
        (addString (addString (mkBuilder 4) ['n', 'a', 'm', 'e'] ['T', 'e', 'm', 'p'])
          ['u', 'n', 'i', 't'] ['C'])
        ['z'] ['x'] = (false, ['x']) := by decide

/-- Claim C4: `nextSensor()` with a committed device truncates the buffer
to exactly `deviceEndOffset`, leaving the bytes `[0, deviceEndOffset)` and
the stored offset itself unchanged (only trailing content is discarded),
resets depth to 0 and clears the root first-flag; with no committed device
every field of the state is unchanged. -/
theorem nextSensor_frame (b : Builder) :
    (nextSensor b).payload
      = (if b.deviceSet then b.payload.take b.deviceEndPos else b.payload) ∧
    (nextSensor b).payload.take b.deviceEndPos = b.payload.take b.deviceEndPos ∧
    (nextSensor b).deviceEndPos = b.deviceEndPos ∧
    (nextSensor b).deviceSet = b.deviceSet ∧
    (nextSensor b).maxDepth = b.maxDepth ∧
    (nextSensor b).depth = (if b.deviceSet then 0 else b.depth) ∧
    (nextSensor b).first = (if b.deviceSet then b.first.set 0 false else b.first) := by
  cases h : b.deviceSet <;> simp [nextSensor, h, List.take_take]

theorem nextSensor_maxDepth (b : Builder) : (nextSensor b).maxDepth = b.maxDepth := by
  unfold nextSensor; split <;> rfl

theorem beginDevice_maxDepth (b : Builder) : (beginDevice b).maxDepth = b.maxDepth := by
  unfold beginDevice; split
  · rfl
  · exact beginObject_maxDepth b deviceKey

theorem endDevice_maxDepth (b : Builder) : (endDevice b).maxDepth = b.maxDepth := by
  unfold endDevice; split
  · rfl
  · exact (endObject_frame b).1

theorem applyOp_maxDepth (b : Builder) (op : Op) : (applyOp b op).maxDepth = b.maxDepth := by
  cases op with
  | addS k v => rfl
  | addL k v => rfl
  | addF k r => rfl
  | addB k v => rfl
  | beginObj k => exact beginObject_maxDepth b k
  | endObj => exact (endObject_frame b).1
  | beginDev => exact beginDevice_maxDepth b
  | endDev => exact endDevice_maxDepth b
  | next => exact nextSensor_maxDepth b
  | clr => rfl

theorem beginObject_depth_le (b : Builder) (k : List Char) (h : b.depth ≤ b.maxDepth) :
    (beginObject b k).depth ≤ (beginObject b k).maxDepth := by
  unfold beginObject; split
  · exact h
  · rename_i hlt
    show b.depth + 1 ≤ b.maxDepth
    omega

theorem applyOp_depth_le (b : Builder) (op : Op) (h : b.depth ≤ b.maxDepth) :
    (applyOp b op).depth ≤ (applyOp b op).maxDepth := by
  cases op with
  | addS k v => exact h
  | addL k v => exact h
  | addF k r => exact h
  | addB k v => exact h
  | beginObj k => exact beginObject_depth_le b k h
  | endObj =>
    show (endObject b).depth ≤ (endObject b).maxDepth
    rw [(endObject_frame b).1]
    exact le_trans (endObject_frame b).2.2.2.2 h
  | beginDev =>
    show (beginDevice b).depth ≤ (beginDevice b).maxDepth
    unfold beginDevice; split
    · exact h
    · exact beginObject_depth_le b deviceKey h
  | endDev =>
    show (endDevice b).depth ≤ (endDevice b).maxDepth
    unfold endDevice; split
    · exact h
    · show (endObject b).depth ≤ (endObject b).maxDepth
      rw [(endObject_frame b).1]
      exact le_trans (endObject_frame b).2.2.2.2 h
  | next =>
    show (nextSensor b).depth ≤ (nextSensor b).maxDepth
    unfold nextSensor; split
    · exact Nat.zero_le _
    · exact h
  | clr => exact Nat.zero_le _

theorem run_preserves_depth (b : Builder) (ops : List Op)
    (h1 : b.depth ≤ b.maxDepth) (h2 : b.maxDepth ≤ kStaticMaxDepth) :
    (run b ops).depth ≤ (run b ops).maxDepth ∧ (run b ops).maxDepth ≤ kStaticMaxDepth := by
  induction ops generalizing b with
  | nil => exact ⟨h1, h2⟩
  | cons op rest ih =>
    exact ih (applyOp b op) (applyOp_depth_le b op h1) ((applyOp_maxDepth b op) ▸ h2)

theorem mkBuilder_depth_le (m : Nat) :
    (mkBuilder m).depth ≤ (mkBuilder m).maxDepth ∧
    (mkBuilder m).maxDepth ≤ kStaticMaxDepth := by
  refine ⟨Nat.zero_le _, ?_⟩
  show (if m > kStaticMaxDepth then kStaticMaxDepth else m) ≤ kStaticMaxDepth
  split <;> omega

/-- Claim C5: in every reachable state the depth never exceeds the ceiling,
the ceiling is clamped at construction to the compile-time limit 6, and a
`beginObject` issued while `depth = maxDepth` is a complete no-op (the
state — buffer, depth, first-flags, device cache — is returned unchanged). -/
theorem depth_ceiling (b : Builder) (key : List Char) (h : Reachable b) :
    b.depth ≤ b.maxDepth ∧ b.maxDepth ≤ kStaticMaxDepth ∧
    (b.depth = b.maxDepth → beginObject b key = b) := by
  obtain ⟨m, ops, rfl⟩ := h
  obtain ⟨hm1, hm2⟩ := mkBuilder_depth_le m
  obtain ⟨h1, h2⟩ := run_preserves_depth (mkBuilder m) ops hm1 hm2
  refine ⟨h1, h2, fun hd => ?_⟩
  unfold beginObject
  rw [if_pos (by omega)]

/-- Claim C5 witness: the freshly constructed builder with ceiling 0 is
reachable, satisfies the bounds, and `beginObject` on it is a no-op. -/
theorem depth_ceiling_witness :
    Reachable (mkBuilder 0) ∧
    ((mkBuilder 0).depth ≤ (mkBuilder 0).maxDepth ∧
     (mkBuilder 0).maxDepth ≤ kStaticMaxDepth ∧
     beginObject (mkBuilder 0) ['k'] = mkBuilder 0) := by
  have hreach : Reachable (mkBuilder 0) := ⟨0, [], rfl⟩
  obtain ⟨h1, h2, h3⟩ := depth_ceiling (mkBuilder 0) ['k'] hreach
  exact ⟨hreach, h1, h2, h3 rfl⟩

theorem endDevice_devSet (b : Builder) : (endDevice b).deviceSet = true := by
  unfold endDevice; split
  · assumption
  · rfl

theorem beginDevice_noop (b : Builder) (h : b.deviceSet = true) : beginDevice b = b := by
  unfold beginDevice; rw [if_pos h]

theorem endDevice_noop (b : Builder) (h : b.deviceSet = true) : endDevice b = b := by
  unfold endDevice; rw [if_pos h]

/-- Claim C7: the device block can be committed at most once per reset
cycle — after one `beginDevice`/`endDevice` pair a second pair changes
nothing — and `clear()` restores the exact post-construction state (it
equals a freshly constructed builder with the same ceiling), after which
`beginDevice()` opens a `"device"` object again (depth becomes 1, the
commit flag is still unset) instead of being treated as a duplicate. -/
theorem device_once_and_clear (b : Builder) (hm6 : b.maxDepth ≤ kStaticMaxDepth)
    (hm1 : 1 ≤ b.maxDepth) :
    endDevice (beginDevice (endDevice (beginDevice b))) = endDevice (beginDevice b) ∧
    clear b = mkBuilder b.maxDepth ∧
    (beginDevice (clear b)).deviceSet = false ∧
    (beginDevice (clear b)).depth = 1 ∧
    (beginDevice (clear b)).payload
      = ['\x7b', '"', 'd', 'e', 'v', 'i', 'c', 'e', '"', ':', '"', '\x7b'] := by
  have h1 : (endDevice (beginDevice b)).deviceSet = true := endDevice_devSet _
  have hpair : endDevice (beginDevice (endDevice (beginDevice b)))
      = endDevice (beginDevice b) := by
    rw [beginDevice_noop _ h1, endDevice_noop _ h1]
  have hclear : clear b = mkBuilder b.maxDepth := by
    have hite : (if b.maxDepth > kStaticMaxDepth then kStaticMaxDepth else b.maxDepth)
        = b.maxDepth := by
      rw [if_neg]; omega
    simp [clear, mkBuilder, hite]
  have hbd : beginDevice (clear b) = beginObject (clear b) deviceKey := by
    unfold beginDevice
    rw [if_neg]
    show ¬((clear b).deviceSet = true)
    exact Bool.false_ne_true
  have hng : ¬(clear b).depth ≥ (clear b).maxDepth := by
    show ¬(0 ≥ b.maxDepth)
    omega
  refine ⟨hpair, hclear, ?_, ?_, ?_⟩ <;>
    (rw [hbd]; unfold beginObject; rw [if_neg hng]; rfl)

/-- Claim C7 witness: a concrete instance at a freshly constructed builder
with the default ceiling 4. -/
theorem device_once_and_clear_witness :
    (mkBuilder 4).maxDepth ≤ kStaticMaxDepth ∧ 1 ≤ (mkBuilder 4).maxDepth ∧
    (endDevice (beginDevice (endDevice (beginDevice (mkBuilder 4))))
        = endDevice (beginDevice (mkBuilder 4)) ∧
     clear (mkBuilder 4) = mkBuilder (mkBuilder 4).maxDepth ∧
     (beginDevice (clear (mkBuilder 4))).deviceSet = false ∧
     (beginDevice (clear (mkBuilder 4))).depth = 1 ∧
     (beginDevice (clear (mkBuilder 4))).payload
       = ['\x7b', '"', 'd', 'e', 'v', 'i', 'c', 'e', '"', ':', '"', '\x7b']) :=
  ⟨by decide, by decide, device_once_and_clear (mkBuilder 4) (by decide) (by decide)⟩

theorem getStringIn_cases (json key result : List Char) :
    (getStringIn json key result).snd = result ∨ (getStringIn json key result).fst = true := by
  unfold getStringIn
  split
  · exact Or.inl rfl
  · split
    · exact Or.inl rfl
    · dsimp only
      split
      · exact Or.inl rfl
      · split
        · exact Or.inl rfl
        · split
          · exact Or.inl rfl
          · exact Or.inr rfl

/-- Claim C8: whenever the lookup reports failure — key text absent, no
colon after it, the value not a quoted string, or the quoted string
unterminated are exactly the paths that report failure — the output
parameter is returned unchanged.  `getString` is a `const` member modelled
as a pure function of the state, so it never mutates the builder. -/
theorem getString_fail_keeps_result (b : Builder) (key result : List Char)
    (h : (getString b key result).fst = false) :
    (getString b key result).snd = result := by
  rcases getStringIn_cases (generate b) key result with hc | hc
  · exact hc
  · exfalso
    rw [getString] at h
    rw [hc] at h
    cases h

/-- Claim C8 witness: lookup of a key absent from the empty payload fails
and leaves the output bytes untouched. -/
theorem getString_fail_keeps_result_witness :
    (getString (mkBuilder 4) ['k'] ['z']).fst = false ∧
    (getString (mkBuilder 4) ['k'] ['z']).snd = ['z'] :=
  ⟨by decide, getString_fail_keeps_result (mkBuilder 4) ['k'] ['z'] (by decide)⟩

theorem applyOp_keeps_device (b : Builder) (op : Op) (hop : ¬op = Op.clr)
    (h : b.deviceSet = true) :
    (applyOp b op).deviceSet = true ∧ (applyOp b op).deviceEndPos = b.deviceEndPos := by
  cases op with
  | addS k v => exact ⟨h, rfl⟩
  | addL k v => exact ⟨h, rfl⟩
  | addF k r => exact ⟨h, rfl⟩
  | addB k v => exact ⟨h, rfl⟩
  | beginObj k => exact ⟨(beginObject_deviceSet b k).trans h, beginObject_deviceEndPos b k⟩
  | endObj => exact ⟨((endObject_frame b).2.1).trans h, (endObject_frame b).2.2.1⟩
  | beginDev =>
    show (beginDevice b).deviceSet = true ∧ (beginDevice b).deviceEndPos = b.deviceEndPos
    unfold beginDevice; rw [if_pos h]
    exact ⟨h, rfl⟩
  | endDev =>
    show (endDevice b).deviceSet = true ∧ (endDevice b).deviceEndPos = b.deviceEndPos
    unfold endDevice; rw [if_pos h]
    exact ⟨h, rfl⟩
  | next =>
    show (nextSensor b).deviceSet = true ∧ (nextSensor b).deviceEndPos = b.deviceEndPos
    unfold nextSensor; rw [if_pos h]
    exact ⟨h, rfl⟩
  | clr => exact absurd rfl hop

theorem run_keeps_device (b : Builder) (ops : List Op) (hops : Op.clr ∉ ops)
    (h : b.deviceSet = true) :
    (run b ops).deviceSet = true ∧ (run b ops).deviceEndPos = b.deviceEndPos := by
  induction ops generalizing b with
  | nil => exact ⟨h, rfl⟩
  | cons op rest ih =>
    have hop : ¬op = Op.clr := fun he => hops (he ▸ List.mem_cons_self op rest)
    have hrest : Op.clr ∉ rest := fun he => hops (List.mem_cons_of_mem op he)
    obtain ⟨h1, h2⟩ := applyOp_keeps_device b op hop h
    obtain ⟨h3, h4⟩ := ih (applyOp b op) hrest h1
    exact ⟨h3, h4.trans h2⟩

/-- Claim C10: calling `endDevice()` with no committed device and no open
device object (depth 0) still commits: it sets the flag, records the
current buffer length as the device end offset, keeps the buffer, and
clears the root first-flag; after any further calls that do not include
`clear()`, `beginDevice()` and `endDevice()` are no-ops and `nextSensor()`
truncates the buffer to the recorded offset. -/
theorem endDevice_without_open (b : Builder) (ops : List Op)
    (hds : b.deviceSet = false) (hd : b.depth = 0) (hops : Op.clr ∉ ops) :
    (endDevice b).deviceSet = true ∧
    (endDevice b).deviceEndPos = b.payload.length ∧
    (endDevice b).payload = b.payload ∧
    (endDevice b).first = b.first.set 0 false ∧
    (run (endDevice b) ops).deviceSet = true ∧
    (run (endDevice b) ops).deviceEndPos = b.payload.length ∧
    beginDevice (run (endDevice b) ops) = run (endDevice b) ops ∧
    endDevice (run (endDevice b) ops) = run (endDevice b) ops ∧
    (nextSensor (run (endDevice b) ops)).payload
      = (run (endDevice b) ops).payload.take b.payload.length := by
  have hend : endObject b = b := by unfold endObject; rw [if_pos hd]
  have h0 : endDevice b =
      { b with
        deviceSet := true
        deviceEndPos := b.payload.length
        first := b.first.set 0 false } := by
    unfold endDevice
    rw [if_neg (by simp [hds]), hend]
  obtain ⟨h5, h6⟩ := run_keeps_device (endDevice b) ops hops (endDevice_devSet b)
  have h6' : (run (endDevice b) ops).deviceEndPos = b.payload.length := by
    rw [h6, h0]
  refine ⟨endDevice_devSet b, by rw [h0], by rw [h0], by rw [h0], h5, h6',
    beginDevice_noop _ h5, endDevice_noop _ h5, ?_⟩
  unfold nextSensor; rw [if_pos h5]
  show (run (endDevice b) ops).payload.take (run (endDevice b) ops).deviceEndPos
    = (run (endDevice b) ops).payload.take b.payload.length
  rw [h6']

/-- Claim C10 witness: `endDevice()` immediately after construction,
followed by one boolean append. -/
theorem endDevice_without_open_witness :
    (mkBuilder 4).deviceSet = false ∧ (mkBuilder 4).depth = 0 ∧
    Op.clr ∉ [Op.addB ['k'] true] ∧
    ((endDevice (mkBuilder 4)).deviceSet = true ∧
     (endDevice (mkBuilder 4)).deviceEndPos = (mkBuilder 4).payload.length ∧
     (endDevice (mkBuilder 4)).payload = (mkBuilder 4).payload ∧
     (endDevice (mkBuilder 4)).first = (mkBuilder 4).first.set 0 false ∧
     (run (endDevice (mkBuilder 4)) [Op.addB ['k'] true]).deviceSet = true ∧
     (run (endDevice (mkBuilder 4)) [Op.addB ['k'] true]).deviceEndPos
       = (mkBuilder 4).payload.length ∧
     beginDevice (run (endDevice (mkBuilder 4)) [Op.addB ['k'] true])
       = run (endDevice (mkBuilder 4)) [Op.addB ['k'] true] ∧
     endDevice (run (endDevice (mkBuilder 4)) [Op.addB ['k'] true])
       = run (endDevice (mkBuilder 4)) [Op.addB ['k'] true] ∧
     (nextSensor (run (endDevice (mkBuilder 4)) [Op.addB ['k'] true])).payload
       = (run (endDevice (mkBuilder 4)) [Op.addB ['k'] true]).payload.take
           (mkBuilder 4).payload.length) :=
  ⟨rfl, rfl, by decide,
    endDevice_without_open (mkBuilder 4) [Op.addB ['k'] true] rfl rfl (by decide)⟩

end HaCfgB
